import Mathlib

/-!
Verification development for the GPS step counter (`src/script.js`).

The persisted store (browser `localStorage`) holds four independent string
keys: distance, goal, stride, date.  We model each stored key semantically,
as the result of the parse the code applies to it:

* `gps_distance_m` is read through `parseFloat`; a missing key or a
  non-numeric / non-finite string parses to `NaN`.  We model the parse
  result as `Option ℚ`, with `none` standing for the missing / `NaN` /
  infinite cases (exactly the cases `Number.isFinite` rejects).
* `gps_goal` is read through `parseInt`, modelled as `Option ℤ` the same way.
* `gps_stride_m` is read through `parseFloat`, modelled as `Option ℚ`.
* `gps_date` is read verbatim, modelled as `Option String` (`none` = missing
  key, i.e. `localStorage.getItem` returned `null`).  JavaScript treats the
  empty string as falsy, which the model reproduces explicitly.

`String(x)` followed by re-parsing is the identity on finite numbers, so
`saveState` stores `some` of each field directly.

Numbers are modelled as `ℚ` (the code only ever compares, adds and divides
finite decimal values; none of the claims concerns floating-point rounding).
-/

/-- Default goal (steps), `DEFAULT_GOAL` in the source. -/
def DEFAULT_GOAL : ℤ := 10000

/-- Default stride in meters, `DEFAULT_STRIDE` in the source. -/
def DEFAULT_STRIDE : ℚ := 0.78

/-- Accuracy guardrail threshold in meters, `MAX_ACCEPTABLE_ACCURACY`. -/
def MAX_ACCEPTABLE_ACCURACY : ℚ := 25

/-- Speed guardrail threshold in m/s, `MAX_SPEED_MPS`. -/
def MAX_SPEED_MPS : ℚ := 8

/-- The persisted key-value store: the four `localStorage` keys, each already
put through the parse the code applies on read (see module docstring). -/
structure Store where
  distance : Option ℚ
  goal : Option ℤ
  stride : Option ℚ
  date : Option String
deriving DecidableEq, Repr

/-- The in-memory `state` object built by `loadState` (and consumed by
`saveState`, which ignores `steps`). -/
structure DailyState where
  distance : ℚ
  goal : ℤ
  stride : ℚ
  date : String
  steps : ℤ
deriving DecidableEq, Repr

/-- `storedDate || todayString()` — JavaScript `||` takes the fallback when
the stored date is `null` (missing key) or the empty string (falsy). -/
def todayDefault (storedDate : Option String) (today : String) : String :=
  match storedDate with
  | some ds => if ds = "" then today else ds
  | none => today

/-- `saveState` (source lines 57–62): writes all four fields; the date key
receives `state.date || todayString()`. `steps` is not persisted. -/
def saveState (state : DailyState) (today : String) : Store :=
  { distance := some state.distance
    goal := some state.goal
    stride := some state.stride
    date := some (if state.date = "" then today else state.date) }

/-- Sanitization of the stored distance (source line 40):
`Number.isFinite(rawDist) && rawDist >= 0 ? rawDist : 0`. -/
def sanitizeDistance (raw : Option ℚ) : ℚ :=
  match raw with
  | some d => if 0 ≤ d then d else 0
  | none => 0

/-- Sanitization of the stored goal (source line 41):
`Number.isFinite(goal) && goal >= 100 ? goal : DEFAULT_GOAL`. -/
def sanitizeGoal (raw : Option ℤ) : ℤ :=
  match raw with
  | some g => if 100 ≤ g then g else DEFAULT_GOAL
  | none => DEFAULT_GOAL

/-- Sanitization of the stored stride (source line 42):
`Number.isFinite(stride) && stride > 0 ? stride : DEFAULT_STRIDE`. -/
def sanitizeStride (raw : Option ℚ) : ℚ :=
  match raw with
  | some s => if 0 < s then s else DEFAULT_STRIDE
  | none => DEFAULT_STRIDE

/-- `loadState` (source lines 33–55), parametrised by the current date
`today` (the value `todayString()` returns).  Returns the state object
together with the store after `loadState`'s only side effect: the immediate
`saveState` performed when the (sanitized) stored date differs from today.
`steps = Math.floor(state.distance / state.stride)` is attached last. -/
def loadState (store : Store) (today : String) : DailyState × Store :=
  let state0 : DailyState :=
    { distance := sanitizeDistance store.distance
      goal := sanitizeGoal store.goal
      stride := sanitizeStride store.stride
      date := todayDefault store.date today
      steps := 0 }
  let p :=
    if state0.date ≠ today then
      let s1 := { state0 with distance := 0, date := today }
      (s1, saveState s1 today)
    else
      (state0, store)
  ({ p.1 with steps := Rat.floor (p.1.distance / p.1.stride) }, p.2)

/-- The `lastPos` runtime variable: `{lat, lon, timestamp}`. -/
structure LastPos where
  lat : ℚ
  lon : ℚ
  timestamp : ℤ
deriving DecidableEq, Repr

/-- One position sample as the `watchPosition` success callback sees it:
`pos.coords.latitude/longitude/accuracy/speed` and the resolved
`pos.timestamp || Date.now()` (milliseconds). -/
structure Sample where
  lat : ℚ
  lon : ℚ
  acc : ℚ
  reportedSpeed : Option ℚ
  timestamp : ℤ
deriving DecidableEq, Repr

/-- Per-sample handler, the body of the `watchPosition` success callback
(source lines 119–165).  `distFn` abstracts `distanceInMeters`
(the haversine great-circle distance with Earth radius 6 371 000 m, source
lines 65–75): the formula is real-valued trigonometry, and the handler uses
its result only in the comparisons `impliedSpeed > 8` and `d >= 0.5`, so
every theorem below is proved for an arbitrary distance function.
Returns the new `lastPos`, the store after the call, and the status string
passed to `updateUI`. -/
def handleSample (distFn : ℚ → ℚ → ℚ → ℚ → ℚ) (lastPos : Option LastPos)
    (store : Store) (today : String) (s : Sample) :
    Option LastPos × Store × String :=
  let p := loadState store today
  if MAX_ACCEPTABLE_ACCURACY < s.acc then
    (lastPos, p.2, "Low accuracy")
  else
    match lastPos with
    | some lp =>
      let dt : ℚ := ((s.timestamp - lp.timestamp : ℤ) : ℚ) / 1000
      if dt ≤ 0 then
        (lastPos, p.2, "Tracking")
      else
        let d := distFn lp.lat lp.lon s.lat s.lon
        let impliedSpeed := d / dt
        if MAX_SPEED_MPS < impliedSpeed then
          (lastPos, p.2, "Tracking (ignoring jump)")
        else if (0.5 : ℚ) ≤ d then
          let state1 := { p.1 with distance := p.1.distance + d }
          (some { lat := s.lat, lon := s.lon, timestamp := s.timestamp },
            saveState state1 today, "Tracking")
        else
          (some { lat := s.lat, lon := s.lon, timestamp := s.timestamp },
            p.2, "Tracking")
    | none =>
      (some { lat := s.lat, lon := s.lon, timestamp := s.timestamp },
        p.2, "Tracking")

/-- `resetData` (source lines 186–194), confirmed branch only (the model
takes the user's confirmation as given): reload, zero the distance, stamp
today, persist, and clear `lastPos`.  Returns the persisted store and the
new `lastPos` (always `none`). -/
def resetData (store : Store) (today : String) : Store × Option LastPos :=
  let p := loadState store today
  let state1 := { p.1 with distance := 0, date := today }
  (saveState state1 today, none)

/-- Outcome of `saveSettings`: which alert/revert path ran, carrying the
value the rejected input element is reverted to, or a successful save. -/
inductive SettingsResult where
  | invalidGoal (reverted : ℤ)
  | invalidStride (reverted : ℚ)
  | saved
deriving DecidableEq, Repr

/-- `parseInt(goalInputEl.value)` is invalid when `!Number.isFinite(rawGoal)
|| rawGoal < 100 || rawGoal > 100000` (source line 199). -/
def goalInvalid (rawGoal : Option ℤ) : Bool :=
  match rawGoal with
  | none => true
  | some g => decide (g < 100) || decide (100000 < g)

/-- `parseFloat(strideInputEl.value)` is invalid when
`!Number.isFinite(rawStride) || rawStride < 0.2 || rawStride > 2`
(source line 205). -/
def strideInvalid (rawStride : Option ℚ) : Bool :=
  match rawStride with
  | none => true
  | some s => decide (s < (0.2 : ℚ)) || decide (2 < s)

/-- `saveSettings` (source lines 196–217).  `rawGoal` / `rawStride` are the
parse results of the two input fields (`none` = `NaN`).  Validation runs
goal first, then stride; each invalid case alerts, reloads, reverts the one
input to the loaded value and returns without writing.  The valid path
reloads, overwrites goal and stride, and persists. -/
def saveSettings (rawGoal : Option ℤ) (rawStride : Option ℚ)
    (store : Store) (today : String) : Store × SettingsResult :=
  match rawGoal with
  | none =>
    let p := loadState store today
    (p.2, SettingsResult.invalidGoal p.1.goal)
  | some g =>
    if g < 100 ∨ 100000 < g then
      let p := loadState store today
      (p.2, SettingsResult.invalidGoal p.1.goal)
    else
      match rawStride with
      | none =>
        let p := loadState store today
        (p.2, SettingsResult.invalidStride p.1.stride)
      | some str =>
        if str < (0.2 : ℚ) ∨ 2 < str then
          let p := loadState store today
          (p.2, SettingsResult.invalidStride p.1.stride)
        else
          let p := loadState store today
          (saveState { p.1 with goal := g, stride := str } today,
            SettingsResult.saved)

theorem sanitizeDistance_nonneg (raw : Option ℚ) : 0 ≤ sanitizeDistance raw := by
  cases raw with
  | none => simp [sanitizeDistance]
  | some d =>
    by_cases h : 0 ≤ d <;> simp [sanitizeDistance, h]

theorem sanitizeGoal_ge (raw : Option ℤ) : 100 ≤ sanitizeGoal raw := by
  cases raw with
  | none => norm_num [sanitizeGoal, DEFAULT_GOAL]
  | some g =>
    by_cases h : 100 ≤ g <;> norm_num [sanitizeGoal, DEFAULT_GOAL, h]

theorem sanitizeStride_pos (raw : Option ℚ) : 0 < sanitizeStride raw := by
  cases raw with
  | none => norm_num [sanitizeStride, DEFAULT_STRIDE]
  | some s =>
    by_cases h : 0 < s <;> norm_num [sanitizeStride, DEFAULT_STRIDE, h]

theorem loadState_of_sameDay (store : Store) (today : String)
    (h : todayDefault store.date today = today) :
    loadState store today =
      ({ distance := sanitizeDistance store.distance
         goal := sanitizeGoal store.goal
         stride := sanitizeStride store.stride
         date := today
         steps := Rat.floor
           (sanitizeDistance store.distance / sanitizeStride store.stride) },
       store) := by
  simp only [loadState]
  rw [if_neg (by simp [h])]
  simp [h]

theorem loadState_of_rollover (store : Store) (today : String)
    (h : todayDefault store.date today ≠ today) :
    loadState store today =
      ({ distance := 0
         goal := sanitizeGoal store.goal
         stride := sanitizeStride store.stride
         date := today
         steps := Rat.floor (0 / sanitizeStride store.stride) },
       { distance := some 0
         goal := some (sanitizeGoal store.goal)
         stride := some (sanitizeStride store.stride)
         date := some today }) := by
  simp only [loadState]
  rw [if_pos (by simp [h])]
  simp [saveState]

theorem loadState_saveState (st : DailyState) (today : String)
    (hd : 0 ≤ st.distance) (hg : 100 ≤ st.goal) (hs : 0 < st.stride)
    (hdate : st.date = today) :
    loadState (saveState st today) today =
      ({ st with steps := Rat.floor (st.distance / st.stride) },
       saveState st today) := by
  subst hdate
  simp [loadState, saveState, sanitizeDistance, sanitizeGoal, sanitizeStride,
    todayDefault, hd, hg, hs]

theorem loadState_idem (store : Store) (today : String) :
    loadState (loadState store today).2 today = loadState store today := by
  by_cases h : todayDefault store.date today = today
  · rw [loadState_of_sameDay store today h]
    exact loadState_of_sameDay store today h
  · rw [loadState_of_rollover store today h]
    have hsa : saveState
        { distance := 0, goal := sanitizeGoal store.goal
          stride := sanitizeStride store.stride, date := today
          steps := Rat.floor (0 / sanitizeStride store.stride) } today =
        { distance := some 0
          goal := some (sanitizeGoal store.goal)
          stride := some (sanitizeStride store.stride)
          date := some today } := by
      simp [saveState]
    rw [← hsa,
      loadState_saveState _ today le_rfl (sanitizeGoal_ge _) (sanitizeStride_pos _) rfl]

theorem handleSample_acc (distFn : ℚ → ℚ → ℚ → ℚ → ℚ) (lastPos : Option LastPos)
    (store : Store) (today : String) (s : Sample)
    (hacc : MAX_ACCEPTABLE_ACCURACY < s.acc) :
    handleSample distFn lastPos store today s =
      (lastPos, (loadState store today).2, "Low accuracy") := by
  simp only [handleSample]
  rw [if_pos hacc]

theorem handleSample_dtNonpos (distFn : ℚ → ℚ → ℚ → ℚ → ℚ) (lp : LastPos)
    (store : Store) (today : String) (s : Sample)
    (hacc : ¬ MAX_ACCEPTABLE_ACCURACY < s.acc)
    (hdt : ((s.timestamp - lp.timestamp : ℤ) : ℚ) / 1000 ≤ 0) :
    handleSample distFn (some lp) store today s =
      (some lp, (loadState store today).2, "Tracking") := by
  simp only [handleSample]
  rw [if_neg hacc, if_pos hdt]

theorem handleSample_jump (distFn : ℚ → ℚ → ℚ → ℚ → ℚ) (lp : LastPos)
    (store : Store) (today : String) (s : Sample)
    (hacc : ¬ MAX_ACCEPTABLE_ACCURACY < s.acc)
    (hdt : ¬ ((s.timestamp - lp.timestamp : ℤ) : ℚ) / 1000 ≤ 0)
    (hspeed : MAX_SPEED_MPS <
      distFn lp.lat lp.lon s.lat s.lon /
        (((s.timestamp - lp.timestamp : ℤ) : ℚ) / 1000)) :
    handleSample distFn (some lp) store today s =
      (some lp, (loadState store today).2, "Tracking (ignoring jump)") := by
  simp only [handleSample]
  rw [if_neg hacc, if_neg hdt, if_pos hspeed]

theorem handleSample_noise (distFn : ℚ → ℚ → ℚ → ℚ → ℚ) (lp : LastPos)
    (store : Store) (today : String) (s : Sample)
    (hacc : ¬ MAX_ACCEPTABLE_ACCURACY < s.acc)
    (hdt : ¬ ((s.timestamp - lp.timestamp : ℤ) : ℚ) / 1000 ≤ 0)
    (hspeed : ¬ MAX_SPEED_MPS <
      distFn lp.lat lp.lon s.lat s.lon /
        (((s.timestamp - lp.timestamp : ℤ) : ℚ) / 1000))
    (hd : ¬ (0.5 : ℚ) ≤ distFn lp.lat lp.lon s.lat s.lon) :
    handleSample distFn (some lp) store today s =
      (some { lat := s.lat, lon := s.lon, timestamp := s.timestamp },
        (loadState store today).2, "Tracking") := by
  simp only [handleSample]
  rw [if_neg hacc, if_neg hdt, if_neg hspeed, if_neg hd]

theorem handleSample_accum (distFn : ℚ → ℚ → ℚ → ℚ → ℚ) (lp : LastPos)
    (store : Store) (today : String) (s : Sample)
    (hacc : ¬ MAX_ACCEPTABLE_ACCURACY < s.acc)
    (hdt : ¬ ((s.timestamp - lp.timestamp : ℤ) : ℚ) / 1000 ≤ 0)
    (hspeed : ¬ MAX_SPEED_MPS <
      distFn lp.lat lp.lon s.lat s.lon /
        (((s.timestamp - lp.timestamp : ℤ) : ℚ) / 1000))
    (hd : (0.5 : ℚ) ≤ distFn lp.lat lp.lon s.lat s.lon) :
    handleSample distFn (some lp) store today s =
      (some { lat := s.lat, lon := s.lon, timestamp := s.timestamp },
        saveState
          { (loadState store today).1 with
            distance :=
              (loadState store today).1.distance +
                distFn lp.lat lp.lon s.lat s.lon } today,
        "Tracking") := by
  simp only [handleSample]
  rw [if_neg hacc, if_neg hdt, if_neg hspeed, if_pos hd]

theorem handleSample_first (distFn : ℚ → ℚ → ℚ → ℚ → ℚ)
    (store : Store) (today : String) (s : Sample)
    (hacc : ¬ MAX_ACCEPTABLE_ACCURACY < s.acc) :
    handleSample distFn none store today s =
      (some { lat := s.lat, lon := s.lon, timestamp := s.timestamp },
        (loadState store today).2, "Tracking") := by
  simp only [handleSample]
  rw [if_neg hacc]

theorem loadState_fst_date (store : Store) (today : String) :
    (loadState store today).1.date = today := by
  by_cases h : todayDefault store.date today = today
  · rw [loadState_of_sameDay store today h]
  · rw [loadState_of_rollover store today h]

theorem loadState_fst_goal (store : Store) (today : String) :
    (loadState store today).1.goal = sanitizeGoal store.goal := by
  by_cases h : todayDefault store.date today = today
  · rw [loadState_of_sameDay store today h]
  · rw [loadState_of_rollover store today h]

theorem loadState_fst_stride (store : Store) (today : String) :
    (loadState store today).1.stride = sanitizeStride store.stride := by
  by_cases h : todayDefault store.date today = today
  · rw [loadState_of_sameDay store today h]
  · rw [loadState_of_rollover store today h]

theorem loadState_fst_distance_nonneg (store : Store) (today : String) :
    0 ≤ (loadState store today).1.distance := by
  by_cases h : todayDefault store.date today = today
  · rw [loadState_of_sameDay store today h]
    exact sanitizeDistance_nonneg store.distance
  · rw [loadState_of_rollover store today h]

theorem loadState_fst_goal_ge (store : Store) (today : String) :
    100 ≤ (loadState store today).1.goal := by
  rw [loadState_fst_goal]; exact sanitizeGoal_ge store.goal

theorem loadState_fst_stride_pos (store : Store) (today : String) :
    0 < (loadState store today).1.stride := by
  rw [loadState_fst_stride]; exact sanitizeStride_pos store.stride

theorem loadState_fst_distance_cases (store : Store) (today : String) :
    (loadState store today).1.distance = sanitizeDistance store.distance ∨
      (loadState store today).1.distance = 0 := by
  by_cases h : todayDefault store.date today = today
  · rw [loadState_of_sameDay store today h]; left; rfl
  · rw [loadState_of_rollover store today h]; right; rfl

/-- C1 counterexample: with today = 2026-10-12, a stored goal of 200000
(outside 100..100000) and a stored stride of 5 m (outside 0.2..2) are both
kept by `loadState`, not replaced by their defaults as the claim states. -/
theorem C1_counterexample :
    (loadState { distance := some 0, goal := some 200000, stride := some 5,
                 date := some "2026-10-12" } "2026-10-12").1.goal = 200000 ∧
    (loadState { distance := some 0, goal := some 200000, stride := some 5,
                 date := some "2026-10-12" } "2026-10-12").1.stride = 5 ∧
    (100000 : ℤ) < 200000 ∧ (2 : ℚ) < 5 ∧
    (200000 : ℤ) ≠ DEFAULT_GOAL ∧ (5 : ℚ) ≠ DEFAULT_STRIDE := by
  refine ⟨?_, ?_, by norm_num, by norm_num, by norm_num [DEFAULT_GOAL],
    by norm_num [DEFAULT_STRIDE]⟩
  · rw [loadState_fst_goal]; norm_num [sanitizeGoal]
  · rw [loadState_fst_stride]; norm_num [sanitizeStride]

/-- C1 (amended): `loadState` sanitizes the four stored fields independently.
A missing or non-finite value is replaced by its default (distance 0, goal
10000, stride 0.78, date = today), a negative stored distance by 0, a stored
goal below 100 by 10000, and a non-positive stored stride by 0.78; but the
upper bounds are not enforced on load: a stored goal of at least 100 is kept
even above 100000, and a positive stored stride is kept even outside
0.2..2. -/
theorem C1_load_sanitizes_each_field (store : Store) (today : String) :
    (loadState store today).1.date = today ∧
    0 ≤ (loadState store today).1.distance ∧
    (store.distance = none → (loadState store today).1.distance = 0) ∧
    (∀ d, store.distance = some d → d < 0 →
      (loadState store today).1.distance = 0) ∧
    (store.goal = none → (loadState store today).1.goal = DEFAULT_GOAL) ∧
    (∀ g, store.goal = some g → g < 100 →
      (loadState store today).1.goal = DEFAULT_GOAL) ∧
    (∀ g, store.goal = some g → 100 ≤ g →
      (loadState store today).1.goal = g) ∧
    (store.stride = none → (loadState store today).1.stride = DEFAULT_STRIDE) ∧
    (∀ q, store.stride = some q → q ≤ 0 →
      (loadState store today).1.stride = DEFAULT_STRIDE) ∧
    (∀ q, store.stride = some q → 0 < q →
      (loadState store today).1.stride = q) := by
  refine ⟨loadState_fst_date store today, loadState_fst_distance_nonneg store today,
    ?_, ?_, ?_, ?_, ?_, ?_, ?_, ?_⟩
  · intro h
    rcases loadState_fst_distance_cases store today with hc | hc <;>
      rw [hc] <;> simp [sanitizeDistance, h]
  · intro d hd hneg
    rcases loadState_fst_distance_cases store today with hc | hc <;> rw [hc]
    · simp [sanitizeDistance, hd, not_le.mpr hneg]
  · intro h; rw [loadState_fst_goal, h]; rfl
  · intro g hg hlt
    rw [loadState_fst_goal, hg]; simp [sanitizeGoal, not_le.mpr hlt]
  · intro g hg hge
    rw [loadState_fst_goal, hg]; simp [sanitizeGoal, hge]
  · intro h; rw [loadState_fst_stride, h]; rfl
  · intro q hq hle
    rw [loadState_fst_stride, hq]; simp [sanitizeStride, not_lt.mpr hle]
  · intro q hq hpos
    rw [loadState_fst_stride, hq]; simp [sanitizeStride, hpos]

/-- C3: when the (sanitized) stored date is not today, `loadState` returns
distance 0 with today's date, persists the reset immediately (the stored
distance key becomes 0), and a second `loadState` without any intervening
mutation returns distance 0 again and changes nothing further. -/
theorem C3_day_rollover (store : Store) (today : String)
    (h : todayDefault store.date today ≠ today) :
    (loadState store today).1.distance = 0 ∧
    (loadState store today).1.date = today ∧
    (loadState store today).2.distance = some 0 ∧
    (loadState (loadState store today).2 today).1.distance = 0 ∧
    loadState (loadState store today).2 today = loadState store today := by
  have hi := loadState_idem store today
  have he := loadState_of_rollover store today h
  refine ⟨by rw [he], loadState_fst_date store today, by rw [he], ?_, hi⟩
  rw [hi, he]

/-- C3 witness at a concrete store (yesterday's date, distance 5000). -/
theorem C3_day_rollover_witness :
    todayDefault (Store.mk (some 5000) (some 10000) (some 1)
        (some "2026-10-11")).date "2026-10-12" ≠ "2026-10-12" ∧
    ((loadState (Store.mk (some 5000) (some 10000) (some 1)
        (some "2026-10-11")) "2026-10-12").1.distance = 0 ∧
     (loadState (Store.mk (some 5000) (some 10000) (some 1)
        (some "2026-10-11")) "2026-10-12").1.date = "2026-10-12" ∧
     (loadState (Store.mk (some 5000) (some 10000) (some 1)
        (some "2026-10-11")) "2026-10-12").2.distance = some 0 ∧
     (loadState (loadState (Store.mk (some 5000) (some 10000) (some 1)
        (some "2026-10-11")) "2026-10-12").2 "2026-10-12").1.distance = 0 ∧
     loadState (loadState (Store.mk (some 5000) (some 10000) (some 1)
        (some "2026-10-11")) "2026-10-12").2 "2026-10-12" =
       loadState (Store.mk (some 5000) (some 10000) (some 1)
        (some "2026-10-11")) "2026-10-12") :=
  ⟨by decide,
   C3_day_rollover (Store.mk (some 5000) (some 10000) (some 1)
     (some "2026-10-11")) "2026-10-12" (by decide)⟩

/-- C9 counterexample: a state whose four fields are all valid per the data
model (distance 5000 ≥ 0, goal 10000 in 100..100000, stride 1 m in 0.2..2,
date the valid calendar date 2026-10-11) does not round-trip through
`saveState` then `loadState` when loaded on 2026-10-12: the returned
distance is 0, not 5000 (the day rollover fires). -/
theorem C9_counterexample :
    ((0 : ℚ) ≤ 5000 ∧ (100 : ℤ) ≤ 10000 ∧ (10000 : ℤ) ≤ 100000 ∧
      (0.2 : ℚ) ≤ 1 ∧ (1 : ℚ) ≤ 2) ∧
    (loadState (saveState (DailyState.mk 5000 10000 1 "2026-10-11" 0)
        "2026-10-12") "2026-10-12").1.distance ≠ (5000 : ℚ) := by
  constructor
  · norm_num
  · have h : todayDefault (saveState (DailyState.mk 5000 10000 1 "2026-10-11" 0)
        "2026-10-12").date "2026-10-12" ≠ "2026-10-12" := by decide
    rw [loadState_of_rollover _ _ h]
    norm_num

/-- C9 (amended): for every state whose fields are valid and whose date is
the current day, `saveState` then `loadState` returns a state equal to the
saved one in all four fields, with `steps` recomputed as
`floor(distanceMeters / strideMeters)`.  (The original claim, quantified
over valid states with any valid date, fails: a valid state carrying an
earlier date is reset by the day rollover inside `loadState`.) -/
theorem C9_round_trip (st : DailyState) (today : String)
    (hd : 0 ≤ st.distance) (hg1 : 100 ≤ st.goal) (hg2 : st.goal ≤ 100000)
    (hs1 : (0.2 : ℚ) ≤ st.stride) (hs2 : st.stride ≤ 2)
    (hdate : st.date = today) :
    (loadState (saveState st today) today).1.distance = st.distance ∧
    (loadState (saveState st today) today).1.goal = st.goal ∧
    (loadState (saveState st today) today).1.stride = st.stride ∧
    (loadState (saveState st today) today).1.date = st.date ∧
    (loadState (saveState st today) today).1.steps =
      Rat.floor (st.distance / st.stride) := by
  have h := loadState_saveState st today hd hg1
    (lt_of_lt_of_le (by norm_num) hs1) hdate
  rw [h]
  exact ⟨rfl, rfl, rfl, rfl, rfl⟩

/-- C9 witness at a concrete valid state dated today. -/
theorem C9_round_trip_witness :
    ((0 : ℚ) ≤ (DailyState.mk 5000 10000 1 "2026-10-12" 0).distance ∧
      (100 : ℤ) ≤ (DailyState.mk 5000 10000 1 "2026-10-12" 0).goal ∧
      (DailyState.mk 5000 10000 1 "2026-10-12" 0).goal ≤ 100000 ∧
      (0.2 : ℚ) ≤ (DailyState.mk 5000 10000 1 "2026-10-12" 0).stride ∧
      (DailyState.mk 5000 10000 1 "2026-10-12" 0).stride ≤ 2 ∧
      (DailyState.mk 5000 10000 1 "2026-10-12" 0).date = "2026-10-12") ∧
    ((loadState (saveState (DailyState.mk 5000 10000 1 "2026-10-12" 0)
        "2026-10-12") "2026-10-12").1.distance =
      (DailyState.mk 5000 10000 1 "2026-10-12" 0).distance ∧
     (loadState (saveState (DailyState.mk 5000 10000 1 "2026-10-12" 0)
        "2026-10-12") "2026-10-12").1.goal =
      (DailyState.mk 5000 10000 1 "2026-10-12" 0).goal ∧
     (loadState (saveState (DailyState.mk 5000 10000 1 "2026-10-12" 0)
        "2026-10-12") "2026-10-12").1.stride =
      (DailyState.mk 5000 10000 1 "2026-10-12" 0).stride ∧
     (loadState (saveState (DailyState.mk 5000 10000 1 "2026-10-12" 0)
        "2026-10-12") "2026-10-12").1.date =
      (DailyState.mk 5000 10000 1 "2026-10-12" 0).date ∧
     (loadState (saveState (DailyState.mk 5000 10000 1 "2026-10-12" 0)
        "2026-10-12") "2026-10-12").1.steps =
      Rat.floor ((DailyState.mk 5000 10000 1 "2026-10-12" 0).distance /
        (DailyState.mk 5000 10000 1 "2026-10-12" 0).stride)) :=
  ⟨⟨by norm_num, by norm_num, by norm_num, by norm_num, by norm_num, rfl⟩,
   C9_round_trip (DailyState.mk 5000 10000 1 "2026-10-12" 0) "2026-10-12"
     (by norm_num) (by norm_num) (by norm_num) (by norm_num) (by norm_num) rfl⟩

/-- C10: the user-confirmed reset zeroes the persisted distance, stamps
today's date, clears `lastPos`, and leaves the goal and stride unchanged:
the persisted goal and stride after the reset are exactly the (sanitized)
goal and stride loaded before it, and loading after the reset returns the
same goal and stride as loading before it. -/
theorem C10_reset_preserves_settings (store : Store) (today : String) :
    (resetData store today).1.goal = some (loadState store today).1.goal ∧
    (resetData store today).1.stride = some (loadState store today).1.stride ∧
    (resetData store today).1.distance = some 0 ∧
    (loadState (resetData store today).1 today).1.goal =
      (loadState store today).1.goal ∧
    (loadState (resetData store today).1 today).1.stride =
      (loadState store today).1.stride ∧
    (loadState (resetData store today).1 today).1.distance = 0 ∧
    (resetData store today).2 = none := by
  have hload : loadState (resetData store today).1 today =
      ({ distance := 0, goal := (loadState store today).1.goal
         stride := (loadState store today).1.stride, date := today
         steps := Rat.floor (0 / (loadState store today).1.stride) },
       (resetData store today).1) := by
    have h := loadState_saveState
      { (loadState store today).1 with distance := 0, date := today } today
      le_rfl (loadState_fst_goal_ge store today)
      (loadState_fst_stride_pos store today) rfl
    exact h
  refine ⟨rfl, rfl, rfl, ?_, ?_, ?_, rfl⟩ <;> rw [hload]

/-- C5: a sample with accuracy above 25 m is rejected by the accuracy
guardrail: the handler returns `lastPos` unchanged, writes nothing beyond
the reload itself, reports "Low accuracy", and the distance for today after
the call equals the distance for today before it — regardless of the
sample's position, reported speed, or timestamp, and of the baseline. -/
theorem C5_accuracy_guardrail (distFn : ℚ → ℚ → ℚ → ℚ → ℚ)
    (lastPos : Option LastPos) (store : Store) (today : String) (s : Sample)
    (hacc : (25 : ℚ) < s.acc) :
    handleSample distFn lastPos store today s =
      (lastPos, (loadState store today).2, "Low accuracy") ∧
    (loadState (handleSample distFn lastPos store today s).2.1 today).1.distance =
      (loadState store today).1.distance := by
  have h := handleSample_acc distFn lastPos store today s hacc
  refine ⟨h, ?_⟩
  rw [h]
  show (loadState (loadState store today).2 today).1.distance =
    (loadState store today).1.distance
  rw [loadState_idem]

/-- C5 witness: a concrete sample with accuracy 30 against a concrete
baseline and store, with a distance function that would report a huge
movement had the sample been considered. -/
theorem C5_accuracy_guardrail_witness :
    (25 : ℚ) < (Sample.mk 1 2 30 none 1000).acc ∧
    (handleSample (fun _ _ _ _ => 1000) (some (LastPos.mk 0 0 0))
        (Store.mk (some 100) (some 10000) (some 1) (some "2026-10-12"))
        "2026-10-12" (Sample.mk 1 2 30 none 1000) =
      (some (LastPos.mk 0 0 0),
        (loadState (Store.mk (some 100) (some 10000) (some 1)
          (some "2026-10-12")) "2026-10-12").2, "Low accuracy") ∧
     (loadState (handleSample (fun _ _ _ _ => 1000) (some (LastPos.mk 0 0 0))
        (Store.mk (some 100) (some 10000) (some 1) (some "2026-10-12"))
        "2026-10-12" (Sample.mk 1 2 30 none 1000)).2.1 "2026-10-12").1.distance =
      (loadState (Store.mk (some 100) (some 10000) (some 1)
        (some "2026-10-12")) "2026-10-12").1.distance) :=
  ⟨by norm_num,
   C5_accuracy_guardrail (fun _ _ _ _ => 1000) (some (LastPos.mk 0 0 0))
     (Store.mk (some 100) (some 10000) (some 1) (some "2026-10-12"))
     "2026-10-12" (Sample.mk 1 2 30 none 1000) (by norm_num)⟩

/-- C7: a sample whose elapsed time against the baseline,
`dt = (sample.timestamp - lastAccepted.timestamp) / 1000`, is non-positive
is dropped as a timestamp anomaly (given it passed the accuracy guardrail):
the baseline stays, nothing is written beyond the reload, the status is
"Tracking", and today's distance is unchanged. -/
theorem C7_timestamp_anomaly (distFn : ℚ → ℚ → ℚ → ℚ → ℚ) (lp : LastPos)
    (store : Store) (today : String) (s : Sample)
    (hacc : ¬ (25 : ℚ) < s.acc)
    (hdt : ((s.timestamp - lp.timestamp : ℤ) : ℚ) / 1000 ≤ 0) :
    handleSample distFn (some lp) store today s =
      (some lp, (loadState store today).2, "Tracking") ∧
    (loadState (handleSample distFn (some lp) store today s).2.1 today).1.distance =
      (loadState store today).1.distance := by
  have h := handleSample_dtNonpos distFn lp store today s hacc hdt
  refine ⟨h, ?_⟩
  rw [h]
  show (loadState (loadState store today).2 today).1.distance =
    (loadState store today).1.distance
  rw [loadState_idem]

/-- C7 witness: a concrete sample carrying the same timestamp as the
baseline (dt = 0). -/
theorem C7_timestamp_anomaly_witness :
    (¬ (25 : ℚ) < (Sample.mk 3 4 10 none 5000).acc ∧
      (((Sample.mk 3 4 10 none 5000).timestamp -
        (LastPos.mk 0 0 5000).timestamp : ℤ) : ℚ) / 1000 ≤ 0) ∧
    (handleSample (fun _ _ _ _ => 100) (some (LastPos.mk 0 0 5000))
        (Store.mk (some 100) (some 10000) (some 1) (some "2026-10-12"))
        "2026-10-12" (Sample.mk 3 4 10 none 5000) =
      (some (LastPos.mk 0 0 5000),
        (loadState (Store.mk (some 100) (some 10000) (some 1)
          (some "2026-10-12")) "2026-10-12").2, "Tracking") ∧
     (loadState (handleSample (fun _ _ _ _ => 100) (some (LastPos.mk 0 0 5000))
        (Store.mk (some 100) (some 10000) (some 1) (some "2026-10-12"))
        "2026-10-12" (Sample.mk 3 4 10 none 5000)).2.1 "2026-10-12").1.distance =
      (loadState (Store.mk (some 100) (some 10000) (some 1)
        (some "2026-10-12")) "2026-10-12").1.distance) :=
  ⟨⟨by norm_num, by norm_num⟩,
   C7_timestamp_anomaly (fun _ _ _ _ => 100) (LastPos.mk 0 0 5000)
     (Store.mk (some 100) (some 10000) (some 1) (some "2026-10-12"))
     "2026-10-12" (Sample.mk 3 4 10 none 5000) (by norm_num) (by norm_num)⟩

/-- C6: a sample that passes the accuracy, elapsed-time and speed checks but
lies less than 0.5 m from the baseline is treated as stationary noise: no
distance is accumulated (today's distance is unchanged and nothing is
written beyond the reload), but the sample does become the new baseline. -/
theorem C6_noise_suppression (distFn : ℚ → ℚ → ℚ → ℚ → ℚ) (lp : LastPos)
    (store : Store) (today : String) (s : Sample)
    (hacc : ¬ (25 : ℚ) < s.acc)
    (hdt : ¬ ((s.timestamp - lp.timestamp : ℤ) : ℚ) / 1000 ≤ 0)
    (hspeed : ¬ (8 : ℚ) < distFn lp.lat lp.lon s.lat s.lon /
      (((s.timestamp - lp.timestamp : ℤ) : ℚ) / 1000))
    (hd : distFn lp.lat lp.lon s.lat s.lon < (0.5 : ℚ)) :
    handleSample distFn (some lp) store today s =
      (some (LastPos.mk s.lat s.lon s.timestamp),
        (loadState store today).2, "Tracking") ∧
    (loadState (handleSample distFn (some lp) store today s).2.1 today).1.distance =
      (loadState store today).1.distance := by
  have h := handleSample_noise distFn lp store today s hacc hdt hspeed
    (not_le.mpr hd)
  refine ⟨h, ?_⟩
  rw [h]
  show (loadState (loadState store today).2 today).1.distance =
    (loadState store today).1.distance
  rw [loadState_idem]

/-- C6 witness: two concrete samples 0.3 m apart, one second apart, with
good accuracy. -/
theorem C6_noise_suppression_witness :
    (¬ (25 : ℚ) < (Sample.mk 1 1 10 none 1000).acc ∧
      ¬ (((Sample.mk 1 1 10 none 1000).timestamp -
        (LastPos.mk 0 0 0).timestamp : ℤ) : ℚ) / 1000 ≤ 0 ∧
      ¬ (8 : ℚ) < (fun _ _ _ _ => (0.3 : ℚ)) (LastPos.mk 0 0 0).lat
        (LastPos.mk 0 0 0).lon (Sample.mk 1 1 10 none 1000).lat
        (Sample.mk 1 1 10 none 1000).lon /
        ((((Sample.mk 1 1 10 none 1000).timestamp -
          (LastPos.mk 0 0 0).timestamp : ℤ) : ℚ) / 1000) ∧
      (fun _ _ _ _ => (0.3 : ℚ)) (LastPos.mk 0 0 0).lat (LastPos.mk 0 0 0).lon
        (Sample.mk 1 1 10 none 1000).lat (Sample.mk 1 1 10 none 1000).lon <
        (0.5 : ℚ)) ∧
    (handleSample (fun _ _ _ _ => (0.3 : ℚ)) (some (LastPos.mk 0 0 0))
        (Store.mk (some 100) (some 10000) (some 1) (some "2026-10-12"))
        "2026-10-12" (Sample.mk 1 1 10 none 1000) =
      (some (LastPos.mk (Sample.mk 1 1 10 none 1000).lat
          (Sample.mk 1 1 10 none 1000).lon
          (Sample.mk 1 1 10 none 1000).timestamp),
        (loadState (Store.mk (some 100) (some 10000) (some 1)
          (some "2026-10-12")) "2026-10-12").2, "Tracking") ∧
     (loadState (handleSample (fun _ _ _ _ => (0.3 : ℚ))
        (some (LastPos.mk 0 0 0))
        (Store.mk (some 100) (some 10000) (some 1) (some "2026-10-12"))
        "2026-10-12" (Sample.mk 1 1 10 none 1000)).2.1 "2026-10-12").1.distance =
      (loadState (Store.mk (some 100) (some 10000) (some 1)
        (some "2026-10-12")) "2026-10-12").1.distance) :=
  ⟨⟨by norm_num, by norm_num, by norm_num, by norm_num⟩,
   C6_noise_suppression (fun _ _ _ _ => (0.3 : ℚ)) (LastPos.mk 0 0 0)
     (Store.mk (some 100) (some 10000) (some 1) (some "2026-10-12"))
     "2026-10-12" (Sample.mk 1 1 10 none 1000) (by norm_num) (by norm_num)
     (by norm_num) (by norm_num)⟩

/-- C2: with accepted baseline A, a sample B that passes the accuracy check
but implies a speed above 8 m/s is rejected as a jump: the baseline stays A,
today's distance is unchanged and the status is "Tracking (ignoring jump)";
a subsequent sample C with plausible speed measured from A (and distance at
least the 0.5 m noise threshold) is then accepted, and the persisted
distance becomes the old distance plus the distance from A to C — not from
B to C. -/
theorem C2_jump_freezes_baseline (distFn : ℚ → ℚ → ℚ → ℚ → ℚ) (A : LastPos)
    (store : Store) (today : String) (B C : Sample)
    (hBacc : ¬ (25 : ℚ) < B.acc)
    (hBdt : ¬ ((B.timestamp - A.timestamp : ℤ) : ℚ) / 1000 ≤ 0)
    (hBspeed : (8 : ℚ) < distFn A.lat A.lon B.lat B.lon /
      (((B.timestamp - A.timestamp : ℤ) : ℚ) / 1000))
    (hCacc : ¬ (25 : ℚ) < C.acc)
    (hCdt : ¬ ((C.timestamp - A.timestamp : ℤ) : ℚ) / 1000 ≤ 0)
    (hCspeed : ¬ (8 : ℚ) < distFn A.lat A.lon C.lat C.lon /
      (((C.timestamp - A.timestamp : ℤ) : ℚ) / 1000))
    (hCd : (0.5 : ℚ) ≤ distFn A.lat A.lon C.lat C.lon) :
    (handleSample distFn (some A) store today B).1 = some A ∧
    (handleSample distFn (some A) store today B).2.2 =
      "Tracking (ignoring jump)" ∧
    (loadState (handleSample distFn (some A) store today B).2.1 today).1.distance =
      (loadState store today).1.distance ∧
    (handleSample distFn (handleSample distFn (some A) store today B).1
        (handleSample distFn (some A) store today B).2.1 today C).1 =
      some (LastPos.mk C.lat C.lon C.timestamp) ∧
    (handleSample distFn (handleSample distFn (some A) store today B).1
        (handleSample distFn (some A) store today B).2.1 today C).2.1.distance =
      some ((loadState store today).1.distance +
        distFn A.lat A.lon C.lat C.lon) := by
  have h1 := handleSample_jump distFn A store today B hBacc hBdt hBspeed
  have h2 := handleSample_accum distFn A (loadState store today).2 today C
    hCacc hCdt hCspeed hCd
  have hidem := loadState_idem store today
  refine ⟨by rw [h1], by rw [h1], ?_, ?_, ?_⟩
  · rw [h1]
    show (loadState (loadState store today).2 today).1.distance =
      (loadState store today).1.distance
    rw [hidem]
  · rw [h1]
    show (handleSample distFn (some A) (loadState store today).2 today C).1 =
      some (LastPos.mk C.lat C.lon C.timestamp)
    rw [h2]
  · rw [h1]
    show (handleSample distFn (some A) (loadState store today).2 today C).2.1.distance =
      some ((loadState store today).1.distance +
        distFn A.lat A.lon C.lat C.lon)
    rw [h2]
    show some ((loadState (loadState store today).2 today).1.distance +
        distFn A.lat A.lon C.lat C.lon) =
      some ((loadState store today).1.distance +
        distFn A.lat A.lon C.lat C.lon)
    rw [hidem]

/-- C2 witness: A at the origin; B 100 m away after 1 s (100 m/s, a jump);
C 10 m from A after 10 s (1 m/s, plausible).  The distance function maps
latitude differences to metres (10 m per unit). -/
theorem C2_jump_freezes_baseline_witness :
    ((¬ (25 : ℚ) < (Sample.mk 10 0 10 none 1000).acc) ∧
      (¬ (((Sample.mk 10 0 10 none 1000).timestamp -
        (LastPos.mk 0 0 0).timestamp : ℤ) : ℚ) / 1000 ≤ 0) ∧
      ((8 : ℚ) < (fun lat1 _ lat2 _ => (lat2 - lat1) * 10) (LastPos.mk 0 0 0).lat
        (LastPos.mk 0 0 0).lon (Sample.mk 10 0 10 none 1000).lat
        (Sample.mk 10 0 10 none 1000).lon /
        ((((Sample.mk 10 0 10 none 1000).timestamp -
          (LastPos.mk 0 0 0).timestamp : ℤ) : ℚ) / 1000)) ∧
      (¬ (25 : ℚ) < (Sample.mk 1 0 10 none 10000).acc) ∧
      (¬ (((Sample.mk 1 0 10 none 10000).timestamp -
        (LastPos.mk 0 0 0).timestamp : ℤ) : ℚ) / 1000 ≤ 0) ∧
      (¬ (8 : ℚ) < (fun lat1 _ lat2 _ => (lat2 - lat1) * 10) (LastPos.mk 0 0 0).lat
        (LastPos.mk 0 0 0).lon (Sample.mk 1 0 10 none 10000).lat
        (Sample.mk 1 0 10 none 10000).lon /
        ((((Sample.mk 1 0 10 none 10000).timestamp -
          (LastPos.mk 0 0 0).timestamp : ℤ) : ℚ) / 1000)) ∧
      ((0.5 : ℚ) ≤ (fun lat1 _ lat2 _ => (lat2 - lat1) * 10) (LastPos.mk 0 0 0).lat
        (LastPos.mk 0 0 0).lon (Sample.mk 1 0 10 none 10000).lat
        (Sample.mk 1 0 10 none 10000).lon)) ∧
    ((handleSample (fun lat1 _ lat2 _ => (lat2 - lat1) * 10) (some (LastPos.mk 0 0 0))
        (Store.mk (some 100) (some 10000) (some 1) (some "2026-10-12"))
        "2026-10-12" (Sample.mk 10 0 10 none 1000)).1 = some (LastPos.mk 0 0 0) ∧
     (handleSample (fun lat1 _ lat2 _ => (lat2 - lat1) * 10) (some (LastPos.mk 0 0 0))
        (Store.mk (some 100) (some 10000) (some 1) (some "2026-10-12"))
        "2026-10-12" (Sample.mk 10 0 10 none 1000)).2.2 =
      "Tracking (ignoring jump)" ∧
     (loadState (handleSample (fun lat1 _ lat2 _ => (lat2 - lat1) * 10)
        (some (LastPos.mk 0 0 0))
        (Store.mk (some 100) (some 10000) (some 1) (some "2026-10-12"))
        "2026-10-12" (Sample.mk 10 0 10 none 1000)).2.1 "2026-10-12").1.distance =
      (loadState (Store.mk (some 100) (some 10000) (some 1)
        (some "2026-10-12")) "2026-10-12").1.distance ∧
     (handleSample (fun lat1 _ lat2 _ => (lat2 - lat1) * 10)
        (handleSample (fun lat1 _ lat2 _ => (lat2 - lat1) * 10) (some (LastPos.mk 0 0 0))
          (Store.mk (some 100) (some 10000) (some 1) (some "2026-10-12"))
          "2026-10-12" (Sample.mk 10 0 10 none 1000)).1
        (handleSample (fun lat1 _ lat2 _ => (lat2 - lat1) * 10) (some (LastPos.mk 0 0 0))
          (Store.mk (some 100) (some 10000) (some 1) (some "2026-10-12"))
          "2026-10-12" (Sample.mk 10 0 10 none 1000)).2.1
        "2026-10-12" (Sample.mk 1 0 10 none 10000)).1 =
      some (LastPos.mk (Sample.mk 1 0 10 none 10000).lat
        (Sample.mk 1 0 10 none 10000).lon
        (Sample.mk 1 0 10 none 10000).timestamp) ∧
     (handleSample (fun lat1 _ lat2 _ => (lat2 - lat1) * 10)
        (handleSample (fun lat1 _ lat2 _ => (lat2 - lat1) * 10) (some (LastPos.mk 0 0 0))
          (Store.mk (some 100) (some 10000) (some 1) (some "2026-10-12"))
          "2026-10-12" (Sample.mk 10 0 10 none 1000)).1
        (handleSample (fun lat1 _ lat2 _ => (lat2 - lat1) * 10) (some (LastPos.mk 0 0 0))
          (Store.mk (some 100) (some 10000) (some 1) (some "2026-10-12"))
          "2026-10-12" (Sample.mk 10 0 10 none 1000)).2.1
        "2026-10-12" (Sample.mk 1 0 10 none 10000)).2.1.distance =
      some ((loadState (Store.mk (some 100) (some 10000) (some 1)
          (some "2026-10-12")) "2026-10-12").1.distance +
        (fun lat1 _ lat2 _ => ((lat2 - lat1) * 10 : ℚ)) (LastPos.mk 0 0 0).lat
          (LastPos.mk 0 0 0).lon (Sample.mk 1 0 10 none 10000).lat
          (Sample.mk 1 0 10 none 10000).lon)) :=
  ⟨⟨by norm_num, by norm_num, by norm_num, by norm_num, by norm_num,
     by norm_num, by norm_num⟩,
   C2_jump_freezes_baseline (fun lat1 _ lat2 _ => (lat2 - lat1) * 10)
     (LastPos.mk 0 0 0)
     (Store.mk (some 100) (some 10000) (some 1) (some "2026-10-12"))
     "2026-10-12" (Sample.mk 10 0 10 none 1000) (Sample.mk 1 0 10 none 10000)
     (by norm_num) (by norm_num) (by norm_num) (by norm_num) (by norm_num)
     (by norm_num) (by norm_num)⟩

theorem loadState_view_snd (store : Store) (today : String) :
    (loadState (loadState store today).2 today).1.distance =
      (loadState store today).1.distance := by
  rw [loadState_idem]

/-- C4: within one day, processing a sample never decreases the accumulated
distance: each handler call either leaves today's distance unchanged or,
when the sample is accepted for accumulation, increases it by the computed
increment d (which is at least the 0.5 m noise threshold).  Stated against
the distance `loadState` reports for `today`, so it covers every branch of
the handler, including the reload it performs first. -/
theorem C4_distance_monotone (distFn : ℚ → ℚ → ℚ → ℚ → ℚ)
    (lastPos : Option LastPos) (store : Store) (today : String) (s : Sample) :
    (loadState store today).1.distance ≤
      (loadState (handleSample distFn lastPos store today s).2.1 today).1.distance ∧
    ((loadState (handleSample distFn lastPos store today s).2.1 today).1.distance =
        (loadState store today).1.distance ∨
      ∃ lp, lastPos = some lp ∧
        (0.5 : ℚ) ≤ distFn lp.lat lp.lon s.lat s.lon ∧
        (loadState (handleSample distFn lastPos store today s).2.1 today).1.distance =
          (loadState store today).1.distance +
            distFn lp.lat lp.lon s.lat s.lon) := by
  have key : (loadState (handleSample distFn lastPos store today s).2.1 today).1.distance =
        (loadState store today).1.distance ∨
      ∃ lp, lastPos = some lp ∧
        (0.5 : ℚ) ≤ distFn lp.lat lp.lon s.lat s.lon ∧
        (loadState (handleSample distFn lastPos store today s).2.1 today).1.distance =
          (loadState store today).1.distance +
            distFn lp.lat lp.lon s.lat s.lon := by
    by_cases hacc : MAX_ACCEPTABLE_ACCURACY < s.acc
    · left
      rw [handleSample_acc distFn lastPos store today s hacc]
      exact loadState_view_snd store today
    · cases lastPos with
      | none =>
        left
        rw [handleSample_first distFn store today s hacc]
        exact loadState_view_snd store today
      | some lp =>
        by_cases hdt : ((s.timestamp - lp.timestamp : ℤ) : ℚ) / 1000 ≤ 0
        · left
          rw [handleSample_dtNonpos distFn lp store today s hacc hdt]
          exact loadState_view_snd store today
        · by_cases hspeed : MAX_SPEED_MPS < distFn lp.lat lp.lon s.lat s.lon /
            (((s.timestamp - lp.timestamp : ℤ) : ℚ) / 1000)
          · left
            rw [handleSample_jump distFn lp store today s hacc hdt hspeed]
            exact loadState_view_snd store today
          · by_cases hd : (0.5 : ℚ) ≤ distFn lp.lat lp.lon s.lat s.lon
            · right
              refine ⟨lp, rfl, hd, ?_⟩
              rw [handleSample_accum distFn lp store today s hacc hdt hspeed hd]
              have hsv := loadState_saveState
                { (loadState store today).1 with
                  distance := (loadState store today).1.distance +
                    distFn lp.lat lp.lon s.lat s.lon } today
                (add_nonneg (loadState_fst_distance_nonneg store today)
                  (le_trans (by norm_num) hd))
                (loadState_fst_goal_ge store today)
                (loadState_fst_stride_pos store today)
                (loadState_fst_date store today)
              show (loadState (saveState
                { (loadState store today).1 with
                  distance := (loadState store today).1.distance +
                    distFn lp.lat lp.lon s.lat s.lon } today) today).1.distance = _
              rw [hsv]
            · left
              rw [handleSample_noise distFn lp store today s hacc hdt hspeed hd]
              exact loadState_view_snd store today
  refine ⟨?_, key⟩
  rcases key with h | ⟨lp, _, hd, h⟩
  · rw [h]
  · rw [h]
    exact le_add_of_nonneg_right (le_trans (by norm_num) hd)

/-- C8 counterexample: with yesterday's date stored, a save with an invalid
goal (parse result `none`, e.g. a non-numeric input) and a valid stride
does abort on the goal — but the persisted state is still mutated, because
the `loadState` call inside `saveSettings` performs the day rollover and
persists it: the stored distance changes from 5000 to 0. -/
theorem C8_counterexample :
    strideInvalid (some 1) = false ∧
    (saveSettings none (some 1) (Store.mk (some 5000) (some 10000) (some 1)
        (some "2026-10-11")) "2026-10-12").2 = SettingsResult.invalidGoal 10000 ∧
    (saveSettings none (some 1) (Store.mk (some 5000) (some 10000) (some 1)
        (some "2026-10-11")) "2026-10-12").1.distance = some 0 ∧
    (Store.mk (some 5000) (some 10000) (some 1)
        (some "2026-10-11")).distance = some (5000 : ℚ) := by
  have h : todayDefault (Store.mk (some 5000) (some 10000) (some 1)
      (some "2026-10-11")).date "2026-10-12" ≠ "2026-10-12" := by decide
  refine ⟨by norm_num [strideInvalid], ?_, ?_, rfl⟩
  · show SettingsResult.invalidGoal (loadState (Store.mk (some 5000)
      (some 10000) (some 1) (some "2026-10-11")) "2026-10-12").1.goal =
      SettingsResult.invalidGoal 10000
    rw [loadState_fst_goal]
    norm_num [sanitizeGoal]
  · show (loadState (Store.mk (some 5000) (some 10000) (some 1)
      (some "2026-10-11")) "2026-10-12").2.distance = some 0
    rw [loadState_of_rollover _ _ h]

/-- C8 (amended): settings validation runs goal first, then stride, and the
whole save aborts on the first invalid field: an invalid goal yields the
invalid-goal outcome with the input reverted to the loaded (persisted,
sanitized) goal even when the submitted stride is valid, and a valid goal
with an invalid stride yields the invalid-stride outcome with the input
reverted to the loaded stride; on an aborted save nothing is written beyond
the `loadState` call itself, so when the stored date is current the
persisted state is completely unchanged (the original claim's "no mutation"
fails only through `loadState`'s day rollover, see the counterexample). -/
theorem C8_settings_validation (rawGoal : Option ℤ) (rawStride : Option ℚ)
    (store : Store) (today : String) :
    (goalInvalid rawGoal = true →
      saveSettings rawGoal rawStride store today =
        ((loadState store today).2,
          SettingsResult.invalidGoal (loadState store today).1.goal)) ∧
    (goalInvalid rawGoal = false → strideInvalid rawStride = true →
      saveSettings rawGoal rawStride store today =
        ((loadState store today).2,
          SettingsResult.invalidStride (loadState store today).1.stride)) ∧
    (todayDefault store.date today = today →
      (loadState store today).2 = store) := by
  refine ⟨?_, ?_, ?_⟩
  · intro hg
    cases rawGoal with
    | none => rfl
    | some g =>
      have hg' : g < 100 ∨ 100000 < g := by
        simpa [goalInvalid] using hg
      simp only [saveSettings]
      rw [if_pos hg']
  · intro hg hs
    cases rawGoal with
    | none => simp [goalInvalid] at hg
    | some g =>
      have hg' : ¬ (g < 100 ∨ 100000 < g) := by
        simp only [goalInvalid, Bool.or_eq_false_iff,
          decide_eq_false_iff_not] at hg
        exact not_or.mpr hg
      cases rawStride with
      | none =>
        simp only [saveSettings]
        rw [if_neg hg']
      | some str =>
        have hs' : str < (0.2 : ℚ) ∨ 2 < str := by
          simpa [strideInvalid] using hs
        simp only [saveSettings]
        rw [if_neg hg', if_pos hs']
  · intro h
    rw [loadState_of_sameDay store today h]
